import Mathlib

/-!
# Suggestions plugin: activation, bot setup and the pre-calculation job

A shallow embedding of `server/plugin.go`.  The plugin is stateful and talks to
collaborators supplied by the host (the plugin API, the helpers, the file
reader, the cron library, the single-node gate and the recommendation
callback).  The embedding passes the state explicitly:

* the collaborators are the fields of `Env`; each one reads and updates an
  external world of type `σ`, so a collaborator may answer differently on
  each call;
* every call the plugin makes is appended to `State.trace` together with what
  it returned, so that "is called", "is never called" and "is called with" are
  statements about the trace;
* Go's `(value, error)` results are pairs whose error component is an
  `Option GoError` (`none` is Go's `nil`);
* `*cron.Cron` pointers are indices into `State.crons`;
* a `go` statement appends the closure to `State.spawned`: the closure is run
  by a later `Step`, never by the function that dispatched it.

`p.API` and `p.Helpers` are taken to be set (the tests install doubles for
the ones a path reaches).
-/

namespace Suggestions

/-! ## Values -/

/-- Go `error` values: a fresh error or one wrapped with a message
(`errors.Wrap`). -/
inductive GoError where
  | new (msg : String)
  | wrap (cause : GoError) (msg : String)
  deriving DecidableEq, Repr

/-- Go `errors.Wrap(err, msg)` from `github.com/pkg/errors`: `nil` stays `nil`. -/
def errorsWrap (err : Option GoError) (msg : String) : Option GoError :=
  match err with
  | none => none
  | some e => some (GoError.wrap e msg)

/-- Go `[]byte`. -/
abbrev Bytes := List Nat

/-- The fields of `model.Bot` that `setupBot` fills in. -/
structure Bot where
  Username : String
  DisplayName : String
  Description : String
  deriving DecidableEq, Repr

/-- Go `model.Command`, as far as `OnActivate` is concerned: the value returned by
`getCommand()`. -/
structure Command where
  Trigger : String
  deriving DecidableEq, Repr

/-- The plugin configuration: the one field `startPrecalcJob` reads. -/
structure configuration where
  PreCalculationPeriod : String
  deriving DecidableEq, Repr

/-- The function values handed to the cron library and to `go`. -/
inductive Closure where
  /-- The `func()` passed to `c.AddFunc` in `startPrecalcJob` -/
  | precalcTick
  /-- The `func()` of the `go` statement in `OnActivate` -/
  | precalcAtOnce
  deriving DecidableEq, Repr

/-- Outcome of one attempt to become the single executor of a round. -/
inductive Acquire where
  | won
  | lost
  | failed (err : GoError)
  deriving DecidableEq, Repr

/-- One call made by the plugin, with what the callee returned. -/
inductive Event where
  | EnsureBot (bot : Bot) (botID : String) (err : Option GoError)
  | GetBundlePath (path : String) (err : Option GoError)
  | reader (filename : String) (data : Bytes) (err : Option GoError)
  | SetProfileImage (userID : String) (data : Bytes) (appErr : Option GoError)
  | RegisterCommand (cmd : Command) (err : Option GoError)
  | LogError (msg : String) (key : String) (err : GoError)
  | cronNew (c : Nat)
  | cronAddFunc (c : Nat) (spec : String) (err : Option GoError)
  | cronStart (c : Nat)
  | cronStop (c : Nat)
  | goFunc (f : Closure)
  | RunOnSingleNode (a : Acquire)
  | preCalculateRecommendations (appErr : Option GoError)
  deriving DecidableEq, Repr

/-- A cron object (`*cron.Cron`) of `github.com/robfig/cron/v3`: its entries and whether its
scheduling loop is running. -/
structure Cron where
  entries : List (String × Closure)
  running : Bool
  deriving DecidableEq, Repr

/-- The fields of `Plugin` that the code in `plugin.go` reads or writes. -/
structure Plugin where
  configuration : Option configuration
  preCalcJob : Option Nat
  preCalcPeriod : String
  botUserID : String
  deriving DecidableEq, Repr

/-- The plugin, the cron objects it allocated, the external world, the calls
made so far and the goroutines dispatched and not yet run. -/
structure State (σ : Type) where
  p : Plugin
  crons : List Cron
  world : σ
  trace : List Event
  spawned : List Closure
  deriving DecidableEq, Repr

/-- The Go type `readFile`: `func(filename string) ([]byte, error)`. -/
abbrev readFile (σ : Type) := String → σ → (Bytes × Option GoError) × σ

/-- The collaborators.  None of them is defined in `plugin.go`. -/
structure Env (σ : Type) where
  /-- Go `p.Helpers.EnsureBot` -/
  EnsureBot : Bot → σ → (String × Option GoError) × σ
  /-- Go `p.API.GetBundlePath` -/
  GetBundlePath : σ → (String × Option GoError) × σ
  /-- Go `p.API.SetProfileImage` -/
  SetProfileImage : String → Bytes → σ → Option GoError × σ
  /-- Go `p.API.RegisterCommand` -/
  RegisterCommand : Command → σ → Option GoError × σ
  /-- Go `ioutil.ReadFile` -/
  ioutilReadFile : readFile σ
  /-- Go `filepath.Join` -/
  filepathJoin : List String → String
  /-- Go `getCommand()` -/
  getCommand : Command
  /-- Go `p.getConfiguration()`, a function of the field `p.configuration` -/
  getConfiguration : Option configuration → configuration
  /-- The parser of the cron library: `none` when the expression is accepted -/
  cronParse : String → Option GoError
  /-- The coordination capability behind `p.RunOnSingleNode` -/
  attemptAcquire : σ → Acquire × σ
  /-- Release of the exclusivity acquired for one round -/
  release : σ → σ
  /-- Go `p.preCalculateRecommendations` -/
  preCalculateRecommendations : σ → Option GoError × σ

/-- How a Go function call ended: it returned an `error` (possibly `nil`), or
it panicked. -/
inductive Ret where
  | returned (err : Option GoError)
  | panicked
  deriving DecidableEq, Repr

variable {σ : Type}

/-- Append one call to the trace. -/
def State.log (s : State σ) (ev : Event) : State σ :=
  { s with trace := s.trace ++ [ev] }

/-- The calls made between state `s` and a later state `t`. -/
def emitted (s t : State σ) : List Event :=
  t.trace.drop s.trace.length

/-- Whether the recorded call returned a non-nil error. -/
def Event.failed : Event → Bool
  | .EnsureBot _ _ err => err.isSome
  | .GetBundlePath _ err => err.isSome
  | .reader _ _ err => err.isSome
  | .SetProfileImage _ _ appErr => appErr.isSome
  | .RegisterCommand _ err => err.isSome
  | .cronAddFunc _ _ err => err.isSome
  | .preCalculateRecommendations appErr => appErr.isSome
  | .RunOnSingleNode (.failed _) => true
  | _ => false

/-! ## `setupBot` -/

/-- The `&model.Bot{...}` literal of `setupBot`. -/
def suggestionsBot : Bot :=
  { Username := "suggestions"
    DisplayName := "Suggestions"
    Description := "Created by the Suggestions plugin." }

/-- Go `func (p *Plugin) setupBot(reader readFile) error`.  A `nil` reader is
`none`; calling it panics. -/
def setupBot (env : Env σ) (reader : Option (readFile σ)) (s : State σ) : Ret × State σ :=
  let r1 := env.EnsureBot suggestionsBot s.world
  let botID := r1.1.1
  let s1 := ({ s with world := r1.2 } : State σ).log (.EnsureBot suggestionsBot botID r1.1.2)
  match r1.1.2 with
  | some err => (.returned (errorsWrap (some err) "failed to ensure suggestions bot"), s1)
  | none =>
    let s2 : State σ := { s1 with p := { s1.p with botUserID := botID } }
    let r2 := env.GetBundlePath s2.world
    let bundlePath := r2.1.1
    let s3 := ({ s2 with world := r2.2 } : State σ).log (.GetBundlePath bundlePath r2.1.2)
    match r2.1.2 with
    | some err => (.returned (errorsWrap (some err) "couldn't get bundle path"), s3)
    | none =>
      match reader with
      | none => (.panicked, s3)
      | some rd =>
        let filename := env.filepathJoin [bundlePath, "assets", "profile.jpeg"]
        let r3 := rd filename s3.world
        let profileImage := r3.1.1
        let s4 := ({ s3 with world := r3.2 } : State σ).log (.reader filename profileImage r3.1.2)
        match r3.1.2 with
        | some err => (.returned (errorsWrap (some err) "couldn't read profile image"), s4)
        | none =>
          let r4 := env.SetProfileImage botID profileImage s4.world
          let s5 := ({ s4 with world := r4.2 } : State σ).log (.SetProfileImage botID profileImage r4.1)
          match r4.1 with
          | some appErr => (.returned (errorsWrap (some appErr) "couldn't set profile image"), s5)
          | none => (.returned none, s5)

/-! ## The cron library (`github.com/robfig/cron/v3`) -/

/-- Apply `f` to the cron object at index `c`, when there is one. -/
def updateCron (cs : List Cron) (c : Nat) (f : Cron → Cron) : List Cron :=
  match cs[c]? with
  | some k => cs.set c (f k)
  | none => cs

/-- Go `cron.New()`: a fresh cron object, without entries and not running. -/
def cronNew (s : State σ) : Nat × State σ :=
  let c := s.crons.length
  (c, ({ s with crons := s.crons ++ [{ entries := [], running := false }] } : State σ).log
    (.cronNew c))

/-- Go `c.AddFunc(spec, cmd)`: the expression is parsed first; a rejected
expression is returned as the error and nothing is registered. -/
def cronAddFunc (env : Env σ) (c : Nat) (spec : String) (cmd : Closure) (s : State σ) :
    Option GoError × State σ :=
  match env.cronParse spec with
  | some err => (some err, s.log (.cronAddFunc c spec (some err)))
  | none =>
    let cs := updateCron s.crons c (fun k => { k with entries := k.entries ++ [(spec, cmd)] })
    (none, ({ s with crons := cs } : State σ).log (.cronAddFunc c spec none))

/-- Go `c.Start()`: the scheduling loop runs from now on. -/
def cronStart (c : Nat) (s : State σ) : State σ :=
  ({ s with crons := updateCron s.crons c (fun k => { k with running := true }) } : State σ).log
    (.cronStart c)

/-- Go `c.Stop()`: the scheduling loop stops; a stopped cron stays stopped. -/
def cronStop (c : Nat) (s : State σ) : State σ :=
  ({ s with crons := updateCron s.crons c (fun k => { k with running := false }) } : State σ).log
    (.cronStop c)

/-! ## The gate and the callback -/

/-- Modelled from the spec: `p.RunOnSingleNode(f)`, which `plugin.go` calls and
does not define.  The spec's gate: "attempt acquire, run-if-acquired, release";
when exclusivity is acquired the callback is invoked and exclusivity released,
when another node won the round the callback is skipped, and when the
coordination capability errors during acquisition that error is returned. -/
def RunOnSingleNode (env : Env σ) (f : State σ → State σ) (s : State σ) :
    Option GoError × State σ :=
  let a := env.attemptAcquire s.world
  let s1 := ({ s with world := a.2 } : State σ).log (.RunOnSingleNode a.1)
  match a.1 with
  | .won =>
    let s2 := f s1
    (none, { s2 with world := env.release s2.world })
  | .lost => (none, s1)
  | .failed err => (some err, s1)

/-- The call `p.preCalculateRecommendations()`: the callback is a collaborator
that works on the external world. -/
def preCalculateRecommendations (env : Env σ) (s : State σ) : Option GoError × State σ :=
  let r := env.preCalculateRecommendations s.world
  (r.1, ({ s with world := r.2 } : State σ).log (.preCalculateRecommendations r.1))

/-- The call `p.API.LogError(msg, key, err)`. -/
def LogError (msg key : String) (err : GoError) (s : State σ) : State σ :=
  s.log (.LogError msg key err)

/-! ## `startPrecalcJob`, `OnActivate`, `OnDeactivate` -/

/-- The `func()` that `startPrecalcJob` passes to `c.AddFunc` (lines 64-73). -/
def tickFunc (env : Env σ) (s : State σ) : State σ :=
  let r := RunOnSingleNode env
    (fun st =>
      let c := preCalculateRecommendations env st
      match c.1 with
      | some appErr => LogError "Can't calculate recommendations" "error" appErr c.2
      | none => c.2)
    s
  match r.1 with
  | some err => LogError "Can't run on single node" "error" err r.2
  | none => r.2

/-- The `func()` of the `go` statement of `OnActivate` (lines 92-101). -/
def atOnceFunc (env : Env σ) (s : State σ) : State σ :=
  let r := RunOnSingleNode env
    (fun st =>
      let c := preCalculateRecommendations env st
      match c.1 with
      | some appErr => LogError "Can't calculate recommendations" "error" appErr c.2
      | none => c.2)
    s
  match r.1 with
  | some err => LogError "Can't run on single node" "error" err r.2
  | none => r.2

/-- Go `func (p *Plugin) startPrecalcJob() error`. -/
def startPrecalcJob (env : Env σ) (s : State σ) : Option GoError × State σ :=
  let config := env.getConfiguration s.p.configuration
  let s1 : State σ := { s with p := { s.p with preCalcPeriod := config.PreCalculationPeriod } }
  let n := cronNew s1
  let c := n.1
  let a := cronAddFunc env c s1.p.preCalcPeriod .precalcTick n.2
  match a.1 with
  | some err => (some err, a.2)
  | none =>
    let s2 := cronStart c a.2
    (none, { s2 with p := { s2.p with preCalcJob := some c } })

/-- The call `p.API.RegisterCommand(cmd)`. -/
def RegisterCommand (env : Env σ) (cmd : Command) (s : State σ) : Option GoError × State σ :=
  let r := env.RegisterCommand cmd s.world
  (r.1, ({ s with world := r.2 } : State σ).log (.RegisterCommand cmd r.1))

/-- Go `func (p *Plugin) OnActivate() error`.  The result of `RegisterCommand`
is dropped, as in the source.  The `go` statement records the dispatch and
leaves the closure in `spawned`. -/
def OnActivate (env : Env σ) (s : State σ) : Ret × State σ :=
  let s1 := (RegisterCommand env env.getCommand s).2
  let b := setupBot env (some env.ioutilReadFile) s1
  match b.1 with
  | .panicked => (.panicked, b.2)
  | .returned (some err) => (.returned (some err), b.2)
  | .returned none =>
    let j := startPrecalcJob env b.2
    match j.1 with
    | some err => (.returned (errorsWrap (some err) "Can't start precalc job"), j.2)
    | none =>
      (.returned none,
        ({ j.2 with spawned := j.2.spawned ++ [.precalcAtOnce] } : State σ).log
          (.goFunc .precalcAtOnce))

/-- Go `func (p *Plugin) OnDeactivate() error`. -/
def OnDeactivate (s : State σ) : Option GoError × State σ :=
  match s.p.preCalcJob with
  | some c => (none, cronStop c s)
  | none => (none, s)

/-! ## Running what was scheduled -/

/-- The body behind a function value. -/
def runClosure (env : Env σ) : Closure → State σ → State σ
  | .precalcTick => tickFunc env
  | .precalcAtOnce => atOnceFunc env

/-- One occurrence of the schedule of cron object `c`: a running cron runs
each of its entries; a stopped one does nothing. -/
def fire (env : Env σ) (c : Nat) (s : State σ) : State σ :=
  match s.crons[c]? with
  | some k => if k.running then k.entries.foldl (fun st e => runClosure env e.2 st) s else s
  | none => s

/-- One scheduled occurrence: every cron object that was started and not
stopped fires, in order of allocation, whether or not the plugin still
references it (the library keeps a started cron firing until `Stop`). -/
def fireAll (env : Env σ) (s : State σ) : State σ :=
  (List.range s.crons.length).foldl (fun st c => fire env c st) s

/-- What happens after activation: a scheduled occurrence, or the oldest
dispatched goroutine runs. -/
inductive Step where
  | tick
  | runSpawned
  deriving DecidableEq, Repr

/-- One step. -/
def step (env : Env σ) : Step → State σ → State σ
  | .tick, s => fireAll env s
  | .runSpawned, s =>
    match s.spawned with
    | [] => s
    | f :: rest => runClosure env f { s with spawned := rest }

/-- A sequence of steps, in order. -/
def run (env : Env σ) (steps : List Step) (s : State σ) : State σ :=
  steps.foldl (fun st a => step env a st) s

/-- Whether the event is an invocation of the callback. -/
def Event.isCallback : Event → Bool
  | .preCalculateRecommendations _ => true
  | _ => false

/-- Number of callback invocations recorded in a trace. -/
def callbackCount (t : List Event) : Nat :=
  t.countP Event.isCallback

/-- The callees that appear in a trace. -/
inductive Callee where
  | EnsureBot
  | GetBundlePath
  | reader
  | SetProfileImage
  | RegisterCommand
  | LogError
  | cronNew
  | AddFunc
  | Start
  | Stop
  | goStmt
  | RunOnSingleNode
  | preCalculateRecommendations
  deriving DecidableEq, Repr

/-- The callee of a recorded call. -/
def Event.callee : Event → Callee
  | .EnsureBot _ _ _ => .EnsureBot
  | .GetBundlePath _ _ => .GetBundlePath
  | .reader _ _ _ => .reader
  | .SetProfileImage _ _ _ => .SetProfileImage
  | .RegisterCommand _ _ => .RegisterCommand
  | .LogError _ _ _ => .LogError
  | .cronNew _ => .cronNew
  | .cronAddFunc _ _ _ => .AddFunc
  | .cronStart _ => .Start
  | .cronStop _ => .Stop
  | .goFunc _ => .goStmt
  | .RunOnSingleNode _ => .RunOnSingleNode
  | .preCalculateRecommendations _ => .preCalculateRecommendations

/-! ## Test doubles -/

/-- The zero value `&Plugin{}` of the tests, with nothing allocated, called or
dispatched yet. -/
def emptyState : State Nat :=
  { p := { configuration := none, preCalcJob := none, preCalcPeriod := "", botUserID := "" }
    crons := []
    world := 0
    trace := []
    spawned := [] }

/-- The reader `mockReader` of `plugin_test.go`. -/
def mockReader : readFile Nat :=
  fun _ w => (([0], none), w)

/-- The doubles of the test "no error", completed with an always-granting gate,
a cron parser that accepts only `@every 1h`, and a callback that counts its
invocations in the world and fails on the first one only. -/
def okEnv : Env Nat :=
  { EnsureBot := fun _ w => (("bot", none), w)
    GetBundlePath := fun w => (("some path", none), w)
    SetProfileImage := fun _ _ w => (none, w)
    RegisterCommand := fun _ w => (none, w)
    ioutilReadFile := mockReader
    filepathJoin := fun parts => "/".intercalate parts
    getCommand := { Trigger := "suggest" }
    getConfiguration := fun cfg =>
      match cfg with
      | some c => c
      | none => { PreCalculationPeriod := "@every 1h" }
    cronParse := fun spec =>
      if spec = "@every 1h" then none else some (.new "bad expression")
    attemptAcquire := fun w => (.won, w)
    release := fun w => w
    preCalculateRecommendations := fun w =>
      (if w = 0 then some (.new "first run failed") else none, w + 1) }

/-- The doubles of the test "EnsureBot error". -/
def ensureBotErrorEnv : Env Nat :=
  { okEnv with EnsureBot := fun _ w => (("", some (.new "")), w) }

/-- The doubles of the test "GetBundlePath error". -/
def bundlePathErrorEnv : Env Nat :=
  { okEnv with GetBundlePath := fun w => (("", some (.new "")), w) }

/-- The doubles of the test "SetProfileImage error". -/
def setImageErrorEnv : Env Nat :=
  { okEnv with SetProfileImage := fun _ _ w => (some (.new "404"), w) }

/-- A coordination capability that errors on acquisition. -/
def gateErrorEnv : Env Nat :=
  { okEnv with attemptAcquire := fun w => (.failed (.new "cluster unreachable"), w) }

/-- A configuration whose recurrence expression the cron parser rejects. -/
def badPeriodState : State Nat :=
  { emptyState with
    p := { emptyState.p with configuration := some { PreCalculationPeriod := "every hour" } } }

/-- The zero-value plugin after one successful `startPrecalcJob`: `preCalcJob`
holds a started job. -/
def startedState : State Nat :=
  (startPrecalcJob okEnv emptyState).2

/-! ## Theorems -/

/-- When the trace of `t` is the trace of `s` followed by `evs`, the calls made
between `s` and `t` are `evs`. -/
theorem emitted_append (s t : State σ) (evs : List Event) (h : t.trace = s.trace ++ evs) :
    emitted s t = evs := by
  simp [emitted, h]

/-- C1: `setupBot` returns a non-nil error exactly when one of the calls it
made (EnsureBot, GetBundlePath, the reader, SetProfileImage) returned an
error; and with a non-nil reader, when no call it made failed, all four were
made in that order and it returns nil. -/
theorem setupBot_error_iff_reached_step_fails (env : Env σ) (reader : Option (readFile σ))
    (s : State σ) :
    ((∃ e, (setupBot env reader s).1 = .returned (some e)) ↔
        ∃ ev ∈ emitted s (setupBot env reader s).2, ev.failed = true) ∧
    (∀ rd, reader = some rd →
      (∀ ev ∈ emitted s (setupBot env reader s).2, ev.failed = false) →
      (setupBot env reader s).1 = .returned none ∧
      (emitted s (setupBot env reader s).2).map Event.callee =
        [.EnsureBot, .GetBundlePath, .reader, .SetProfileImage]) := by
  unfold setupBot
  generalize env.EnsureBot suggestionsBot s.world = r1
  obtain ⟨⟨botID, err1⟩, w1⟩ := r1
  cases err1 with
  | some e1 => simp [emitted, State.log, errorsWrap, Event.failed]
  | none =>
    dsimp only [State.log]
    generalize env.GetBundlePath w1 = r2
    obtain ⟨⟨bundlePath, err2⟩, w2⟩ := r2
    cases err2 with
    | some e2 => simp [emitted, errorsWrap, Event.failed]
    | none =>
      cases reader with
      | none => simp [emitted, Event.failed]
      | some rd =>
        dsimp only
        generalize rd (env.filepathJoin [bundlePath, "assets", "profile.jpeg"]) w2 = r3
        obtain ⟨⟨profileImage, err3⟩, w3⟩ := r3
        cases err3 with
        | some e3 => simp [emitted, errorsWrap, Event.failed]
        | none =>
          dsimp only
          generalize env.SetProfileImage botID profileImage w3 = r4
          obtain ⟨appErr, w4⟩ := r4
          cases appErr with
          | some e4 => simp [emitted, errorsWrap, Event.failed]
          | none => simp [emitted, Event.failed, Event.callee]

/-- Witness of C1 on the doubles of the test "no error". -/
theorem setupBot_error_iff_reached_step_fails_witness :
    (setupBot okEnv (some mockReader) emptyState).1 = .returned none ∧
    (emitted emptyState (setupBot okEnv (some mockReader) emptyState).2).map Event.callee =
      [.EnsureBot, .GetBundlePath, .reader, .SetProfileImage] :=
  (setupBot_error_iff_reached_step_fails okEnv (some mockReader) emptyState).2 mockReader rfl
    (by decide)

/-- C2: the calls of `setupBot` are an initial segment of EnsureBot,
GetBundlePath, reader, SetProfileImage; only the last call made can have
failed, so no step follows a failing one; and the nil reader is invoked (a
panic) only after EnsureBot and GetBundlePath were both called and both
succeeded. -/
theorem setupBot_stops_at_first_failure (env : Env σ) (reader : Option (readFile σ))
    (s : State σ) :
    (emitted s (setupBot env reader s).2).map Event.callee <+:
        [.EnsureBot, .GetBundlePath, .reader, .SetProfileImage] ∧
    (∀ ev ∈ (emitted s (setupBot env reader s).2).dropLast, ev.failed = false) ∧
    ((setupBot env reader s).1 = .panicked ↔
      reader = none ∧
      (emitted s (setupBot env reader s).2).map Event.callee = [.EnsureBot, .GetBundlePath] ∧
      ∀ ev ∈ emitted s (setupBot env reader s).2, ev.failed = false) := by
  unfold setupBot
  generalize env.EnsureBot suggestionsBot s.world = r1
  obtain ⟨⟨botID, err1⟩, w1⟩ := r1
  cases err1 with
  | some e1 => simp [emitted, State.log, errorsWrap, Event.failed, Event.callee]
  | none =>
    dsimp only [State.log]
    generalize env.GetBundlePath w1 = r2
    obtain ⟨⟨bundlePath, err2⟩, w2⟩ := r2
    cases err2 with
    | some e2 => simp [emitted, errorsWrap, Event.failed, Event.callee]
    | none =>
      cases reader with
      | none => simp [emitted, Event.failed, Event.callee]
      | some rd =>
        dsimp only
        generalize rd (env.filepathJoin [bundlePath, "assets", "profile.jpeg"]) w2 = r3
        obtain ⟨⟨profileImage, err3⟩, w3⟩ := r3
        cases err3 with
        | some e3 => simp [emitted, errorsWrap, Event.failed, Event.callee]
        | none =>
          dsimp only
          generalize env.SetProfileImage botID profileImage w3 = r4
          obtain ⟨appErr, w4⟩ := r4
          cases appErr with
          | some e4 => simp [emitted, errorsWrap, Event.failed, Event.callee]
          | none => simp [emitted, Event.failed, Event.callee]

/-- Witness of C2 on the doubles of the test "GetBundlePath error", with the
nil reader of that test: the reader is not invoked. -/
theorem setupBot_stops_at_first_failure_witness :
    (emitted emptyState (setupBot bundlePathErrorEnv none emptyState).2).map Event.callee =
        [.EnsureBot, .GetBundlePath] ∧
    ¬ (setupBot bundlePathErrorEnv none emptyState).1 = .panicked :=
  ⟨by decide, fun h =>
    absurd
      (((setupBot_stops_at_first_failure bundlePathErrorEnv none emptyState).2.2.mp h).2.2
        (.GetBundlePath "" (some (.new ""))) (by decide))
      (by decide)⟩

/-- C10: `setupBot` leaves the cron objects, the dispatched goroutines and
every plugin field other than `botUserID` as they were.  When EnsureBot
fails, `botUserID` keeps its value; when EnsureBot returns id `b` without
error, `botUserID` is `b` afterwards whatever the later steps do, and a call
of SetProfileImage has `b` as user id and as data the bytes the reader
returned. -/
theorem setupBot_changes_only_botUserID (env : Env σ) (reader : Option (readFile σ))
    (s : State σ) :
    (setupBot env reader s).2.crons = s.crons ∧
    (setupBot env reader s).2.spawned = s.spawned ∧
    (setupBot env reader s).2.p =
      { s.p with botUserID := (setupBot env reader s).2.p.botUserID } ∧
    (∀ e, (env.EnsureBot suggestionsBot s.world).1.2 = some e →
      (setupBot env reader s).2.p.botUserID = s.p.botUserID) ∧
    ((env.EnsureBot suggestionsBot s.world).1.2 = none →
      (setupBot env reader s).2.p.botUserID = (env.EnsureBot suggestionsBot s.world).1.1 ∧
      ∀ uid data appErr,
        Event.SetProfileImage uid data appErr ∈ emitted s (setupBot env reader s).2 →
        uid = (env.EnsureBot suggestionsBot s.world).1.1 ∧
        ∃ fn, Event.reader fn data none ∈ emitted s (setupBot env reader s).2 ∧
          match reader with
          | some rd => ∃ w, (rd fn w).1 = (data, none)
          | none => False) := by
  unfold setupBot
  generalize env.EnsureBot suggestionsBot s.world = r1
  obtain ⟨⟨botID, err1⟩, w1⟩ := r1
  cases err1 with
  | some e1 => simp [emitted, State.log, errorsWrap]
  | none =>
    dsimp only [State.log]
    generalize env.GetBundlePath w1 = r2
    obtain ⟨⟨bundlePath, err2⟩, w2⟩ := r2
    cases err2 with
    | some e2 => simp [emitted, errorsWrap]
    | none =>
      cases reader with
      | none => simp [emitted]
      | some rd =>
        dsimp only
        generalize h3 : rd (env.filepathJoin [bundlePath, "assets", "profile.jpeg"]) w2 = r3
        obtain ⟨⟨profileImage, err3⟩, w3⟩ := r3
        cases err3 with
        | some e3 => simp [emitted, errorsWrap]
        | none =>
          dsimp only
          generalize env.SetProfileImage botID profileImage w3 = r4
          obtain ⟨appErr, w4⟩ := r4
          have hrd : ∃ w, (rd (env.filepathJoin [bundlePath, "assets", "profile.jpeg"]) w).1 =
              (profileImage, none) := ⟨w2, by rw [h3]⟩
          cases appErr with
          | some e4 =>
            simp only [emitted, errorsWrap, List.append_assoc, List.drop_left, List.mem_cons,
              List.cons_append, List.nil_append, List.mem_singleton, List.not_mem_nil,
              Event.SetProfileImage.injEq, Event.reader.injEq, reduceCtorEq, false_or, or_false,
              true_and, and_true, false_implies, implies_true, and_self]
            intro _ uid data appErr hu
            obtain ⟨hu, hd, _⟩ := hu
            subst hu hd
            exact ⟨rfl, _, ⟨rfl, rfl⟩, hrd⟩
          | none =>
            simp only [emitted, List.append_assoc, List.drop_left, List.mem_cons,
              List.cons_append, List.nil_append, List.mem_singleton, List.not_mem_nil,
              Event.SetProfileImage.injEq, Event.reader.injEq, reduceCtorEq, false_or, or_false,
              true_and, and_true, false_implies, implies_true, and_self]
            intro _ uid data appErr hu
            obtain ⟨hu, hd, _⟩ := hu
            subst hu hd
            exact ⟨rfl, _, ⟨rfl, rfl⟩, hrd⟩

/-- Witness of C10 on the doubles of the test "SetProfileImage error": the
call fails and `botUserID` is the id EnsureBot returned. -/
theorem setupBot_changes_only_botUserID_witness :
    (setupBot setImageErrorEnv (some mockReader) emptyState).1 ≠ .returned none ∧
    (setupBot setImageErrorEnv (some mockReader) emptyState).2.p.botUserID = "bot" :=
  ⟨by decide,
    ((setupBot_changes_only_botUserID setImageErrorEnv (some mockReader) emptyState).2.2.2.2
      rfl).1⟩

/-! ### Closed forms used below -/

/-- Updating the cron object that was allocated last. -/
theorem updateCron_length_append (cs : List Cron) (k : Cron) (f : Cron → Cron) :
    updateCron (cs ++ [k]) cs.length f = cs ++ [f k] := by
  simp [updateCron]

/-- What `setupBot` changes: `botUserID`, the world, and the trace, which grows
by calls of its four collaborators. -/
theorem setupBot_effect (env : Env σ) (reader : Option (readFile σ)) (s : State σ) :
    ∃ evs w b, (setupBot env reader s).2 =
        { s with p := { s.p with botUserID := b }, world := w, trace := s.trace ++ evs } ∧
      ∀ ev ∈ evs, ev.callee = .EnsureBot ∨ ev.callee = .GetBundlePath ∨
        ev.callee = .reader ∨ ev.callee = .SetProfileImage := by
  unfold setupBot
  generalize env.EnsureBot suggestionsBot s.world = r1
  obtain ⟨⟨botID, err1⟩, w1⟩ := r1
  cases err1 with
  | some e1 =>
    exact ⟨[.EnsureBot suggestionsBot botID (some e1)], w1, s.p.botUserID, rfl,
      by simp [Event.callee]⟩
  | none =>
    dsimp only [State.log]
    generalize env.GetBundlePath w1 = r2
    obtain ⟨⟨bundlePath, err2⟩, w2⟩ := r2
    cases err2 with
    | some e2 =>
      exact ⟨[.EnsureBot suggestionsBot botID none, .GetBundlePath bundlePath (some e2)], w2, botID, by simp,
        by simp [Event.callee]⟩
    | none =>
      cases reader with
      | none =>
        exact ⟨[.EnsureBot suggestionsBot botID none, .GetBundlePath bundlePath none], w2, botID, by simp, by simp [Event.callee]⟩
      | some rd =>
        dsimp only
        generalize rd (env.filepathJoin [bundlePath, "assets", "profile.jpeg"]) w2 = r3
        obtain ⟨⟨profileImage, err3⟩, w3⟩ := r3
        cases err3 with
        | some e3 =>
          exact ⟨[.EnsureBot suggestionsBot botID none, .GetBundlePath bundlePath none,
            .reader (env.filepathJoin [bundlePath, "assets", "profile.jpeg"]) profileImage
              (some e3)], w3, botID, by simp, by simp [Event.callee]⟩
        | none =>
          dsimp only
          generalize env.SetProfileImage botID profileImage w3 = r4
          obtain ⟨appErr, w4⟩ := r4
          cases appErr with
          | some e4 =>
            exact ⟨[.EnsureBot suggestionsBot botID none, .GetBundlePath bundlePath none,
              .reader (env.filepathJoin [bundlePath, "assets", "profile.jpeg"]) profileImage none,
              .SetProfileImage botID profileImage (some e4)], w4, botID, by simp,
              by simp [Event.callee]⟩
          | none =>
            exact ⟨[.EnsureBot suggestionsBot botID none, .GetBundlePath bundlePath none,
              .reader (env.filepathJoin [bundlePath, "assets", "profile.jpeg"]) profileImage none,
              .SetProfileImage botID profileImage none], w4, botID, by simp,
              by simp [Event.callee]⟩

/-- With a non-nil reader `setupBot` returns. -/
theorem setupBot_returns (env : Env σ) (rd : readFile σ) (s : State σ) :
    ∃ err, (setupBot env (some rd) s).1 = .returned err := by
  unfold setupBot
  dsimp only
  split
  · exact ⟨_, rfl⟩
  · split
    · exact ⟨_, rfl⟩
    · split
      · exact ⟨_, rfl⟩
      · split <;> exact ⟨_, rfl⟩

/-- Closed form of `startPrecalcJob` when the cron parser rejects the
configured expression. -/
theorem startPrecalcJob_rejected_eq (env : Env σ) (s : State σ) (e : GoError)
    (h : env.cronParse (env.getConfiguration s.p.configuration).PreCalculationPeriod = some e) :
    startPrecalcJob env s =
      (some e,
        { s with
          p := { s.p with
            preCalcPeriod := (env.getConfiguration s.p.configuration).PreCalculationPeriod }
          crons := s.crons ++ [{ entries := [], running := false }]
          trace := s.trace ++
            [.cronNew s.crons.length,
             .cronAddFunc s.crons.length
               (env.getConfiguration s.p.configuration).PreCalculationPeriod (some e)] }) := by
  simp [startPrecalcJob, cronNew, cronAddFunc, State.log, h]

/-- Closed form of `startPrecalcJob` when the cron parser accepts the
configured expression. -/
theorem startPrecalcJob_accepted_eq (env : Env σ) (s : State σ)
    (h : env.cronParse (env.getConfiguration s.p.configuration).PreCalculationPeriod = none) :
    startPrecalcJob env s =
      (none,
        { s with
          p := { s.p with
            preCalcPeriod := (env.getConfiguration s.p.configuration).PreCalculationPeriod
            preCalcJob := some s.crons.length }
          crons := s.crons ++
            [{ entries :=
                [((env.getConfiguration s.p.configuration).PreCalculationPeriod, .precalcTick)]
               running := true }]
          trace := s.trace ++
            [.cronNew s.crons.length,
             .cronAddFunc s.crons.length
               (env.getConfiguration s.p.configuration).PreCalculationPeriod none,
             .cronStart s.crons.length] }) := by
  simp [startPrecalcJob, cronNew, cronAddFunc, cronStart, State.log, h,
    updateCron_length_append]

/-- C3: when `setupBot` fails inside `OnActivate`, `OnActivate` returns that
error; RegisterCommand was called first and exactly once; no cron call, no
dispatch and no gate or callback call was made; `preCalcJob`, the cron
objects and the dispatched goroutines are as before. -/
theorem OnActivate_setupBot_fails (env : Env σ) (s : State σ) (e : GoError)
    (h : (setupBot env (some env.ioutilReadFile)
      (RegisterCommand env env.getCommand s).2).1 = .returned (some e)) :
    (OnActivate env s).1 = .returned (some e) ∧
    (emitted s (OnActivate env s).2).head? =
      some (.RegisterCommand env.getCommand (env.RegisterCommand env.getCommand s.world).1) ∧
    ((emitted s (OnActivate env s).2).map Event.callee).count .RegisterCommand = 1 ∧
    (∀ ev ∈ emitted s (OnActivate env s).2,
      ev.callee ≠ .cronNew ∧ ev.callee ≠ .AddFunc ∧ ev.callee ≠ .Start ∧
      ev.callee ≠ .goStmt ∧ ev.callee ≠ .RunOnSingleNode ∧
      ev.callee ≠ .preCalculateRecommendations) ∧
    (OnActivate env s).2.p.preCalcJob = s.p.preCalcJob ∧
    (OnActivate env s).2.crons = s.crons ∧
    (OnActivate env s).2.spawned = s.spawned := by
  obtain ⟨evs, w, b, heq, hev⟩ :=
    setupBot_effect env (some env.ioutilReadFile) (RegisterCommand env env.getCommand s).2
  have hO : OnActivate env s =
      (.returned (some e),
        (setupBot env (some env.ioutilReadFile) (RegisterCommand env env.getCommand s).2).2) := by
    simp only [OnActivate, h]
  rw [hO, heq]
  have hcount : (evs.map Event.callee).count .RegisterCommand = 0 := by
    rw [List.count_eq_zero]
    intro hmem
    obtain ⟨ev, hev1, hev2⟩ := List.mem_map.mp hmem
    rcases hev ev hev1 with h1 | h1 | h1 | h1 <;> rw [h1] at hev2 <;> cases hev2
  refine ⟨rfl, ?_, ?_, ?_, rfl, rfl, rfl⟩
  · simp [emitted, RegisterCommand, State.log]
  · simp [emitted, RegisterCommand, State.log, Event.callee, hcount]
  · intro ev hmem
    simp only [emitted, RegisterCommand, State.log, List.append_assoc, List.drop_left,
      List.singleton_append, List.mem_cons] at hmem
    rcases hmem with rfl | hmem
    · simp [Event.callee]
    · rcases hev ev hmem with h1 | h1 | h1 | h1 <;> simp [h1]

/-- Witness of C3 on the doubles of `TestOnActivate`. -/
theorem OnActivate_setupBot_fails_witness :
    (OnActivate ensureBotErrorEnv emptyState).1 =
      .returned (some (.wrap (.new "") "failed to ensure suggestions bot")) ∧
    (OnActivate ensureBotErrorEnv emptyState).2.p.preCalcJob = none :=
  ⟨(OnActivate_setupBot_fails ensureBotErrorEnv emptyState
      (.wrap (.new "") "failed to ensure suggestions bot") rfl).1,
    (OnActivate_setupBot_fails ensureBotErrorEnv emptyState
      (.wrap (.new "") "failed to ensure suggestions bot") rfl).2.2.2.2.1⟩

/-- C4: when the cron parser rejects the configured expression,
`startPrecalcJob` returns the parser's error, makes no Start call, leaves the
cron object it allocated stopped, and leaves `preCalcJob` and the existing
cron objects as they were; `OnActivate` then returns a non-nil error (the
parser's error wrapped, when `setupBot` succeeded), makes no Start, gate or
callback call, dispatches nothing and leaves `preCalcJob` as it was. -/
theorem startPrecalcJob_rejected_expression (env : Env σ) (s : State σ) (e : GoError)
    (h : env.cronParse (env.getConfiguration s.p.configuration).PreCalculationPeriod = some e) :
    (startPrecalcJob env s).1 = some e ∧
    (startPrecalcJob env s).2.p.preCalcJob = s.p.preCalcJob ∧
    (∀ ev ∈ emitted s (startPrecalcJob env s).2, ev.callee ≠ .Start) ∧
    (startPrecalcJob env s).2.crons.take s.crons.length = s.crons ∧
    (∀ k ∈ (startPrecalcJob env s).2.crons.drop s.crons.length, k.running = false) ∧
    (∃ e1, (OnActivate env s).1 = .returned (some e1)) ∧
    ((setupBot env (some env.ioutilReadFile) (RegisterCommand env env.getCommand s).2).1 =
        .returned none →
      (OnActivate env s).1 = .returned (some (.wrap e "Can't start precalc job"))) ∧
    (∀ ev ∈ emitted s (OnActivate env s).2,
      ev.callee ≠ .Start ∧ ev.callee ≠ .goStmt ∧ ev.callee ≠ .RunOnSingleNode ∧
      ev.callee ≠ .preCalculateRecommendations) ∧
    (OnActivate env s).2.spawned = s.spawned ∧
    (OnActivate env s).2.p.preCalcJob = s.p.preCalcJob := by
  have hs := startPrecalcJob_rejected_eq env s e h
  obtain ⟨evs, w, b, heq, hev⟩ :=
    setupBot_effect env (some env.ioutilReadFile) (RegisterCommand env env.getCommand s).2
  obtain ⟨err, hr⟩ :=
    setupBot_returns env env.ioutilReadFile (RegisterCommand env env.getCommand s).2
  have hev2 : ∀ ev ∈ evs, ev.callee ≠ .Start ∧ ev.callee ≠ .goStmt ∧
      ev.callee ≠ .RunOnSingleNode ∧ ev.callee ≠ .preCalculateRecommendations := by
    intro ev hmem
    rcases hev ev hmem with h1 | h1 | h1 | h1 <;> simp [h1]
  refine ⟨by rw [hs], by rw [hs], ?_, by rw [hs]; simp, ?_, ?_⟩
  · rw [hs]
    simp [emitted, Event.callee]
  · rw [hs]
    simp
  cases err with
  | some e1 =>
    have hO : OnActivate env s =
        (.returned (some e1),
          (setupBot env (some env.ioutilReadFile)
            (RegisterCommand env env.getCommand s).2).2) := by
      simp only [OnActivate, hr]
    rw [hO, heq, hr]
    refine ⟨⟨e1, rfl⟩, by simp, ?_, rfl, rfl⟩
    intro ev hmem
    simp only [emitted, RegisterCommand, State.log, List.append_assoc, List.drop_left,
      List.singleton_append, List.mem_cons] at hmem
    rcases hmem with rfl | hmem
    · simp [Event.callee]
    · exact hev2 ev hmem
  | none =>
    have h2 : env.cronParse (env.getConfiguration
        (setupBot env (some env.ioutilReadFile)
          (RegisterCommand env env.getCommand s).2).2.p.configuration).PreCalculationPeriod =
        some e := by
      rw [heq]
      exact h
    have hj := startPrecalcJob_rejected_eq env _ e h2
    have hO : OnActivate env s =
        (.returned (some (.wrap e "Can't start precalc job")),
          (startPrecalcJob env (setupBot env (some env.ioutilReadFile)
            (RegisterCommand env env.getCommand s).2).2).2) := by
      simp only [OnActivate, hr, hj, errorsWrap]
    rw [hO, hj, heq]
    refine ⟨⟨_, rfl⟩, fun _ => rfl, ?_, rfl, rfl⟩
    intro ev hmem
    simp only [emitted, RegisterCommand, State.log, List.append_assoc, List.drop_left,
      List.singleton_append, List.mem_cons, List.mem_append, List.cons_append,
      List.nil_append, List.mem_singleton, List.not_mem_nil, or_false] at hmem
    rcases hmem with rfl | hmem | rfl | rfl
    · simp [Event.callee]
    · exact hev2 ev hmem
    · simp [Event.callee]
    · simp [Event.callee]

/-- Witness of C4: the doubles of the test "no error" with the expression
`every hour`, which the parser double rejects. -/
theorem startPrecalcJob_rejected_expression_witness :
    (startPrecalcJob okEnv badPeriodState).1 = some (.new "bad expression") ∧
    (OnActivate okEnv badPeriodState).2.spawned = [] :=
  ⟨(startPrecalcJob_rejected_expression okEnv badPeriodState (.new "bad expression")
      (by decide)).1,
    (startPrecalcJob_rejected_expression okEnv badPeriodState (.new "bad expression")
      (by decide)).2.2.2.2.2.2.2.2.1⟩

/-- Stopping a cron object twice is stopping it once. -/
theorem updateCron_stop_twice (cs : List Cron) (c : Nat) :
    updateCron (updateCron cs c (fun k => { k with running := false })) c
        (fun k => { k with running := false }) =
      updateCron cs c (fun k => { k with running := false }) := by
  unfold updateCron
  cases h : cs[c]? with
  | none => simp [h]
  | some k =>
    have hc : c < cs.length := by
      by_contra hlt
      rw [List.getElem?_eq_none (Nat.le_of_not_lt hlt)] at h
      cases h
    simp [hc]

/-- C5: `OnDeactivate` returns nil; without a handle it changes nothing and
calls nothing; with a handle it makes one Stop call; and a second call
returns nil again and leaves the plugin, the cron objects, the world and the
dispatched goroutines as the first call left them. -/
theorem OnDeactivate_nil_and_idempotent (s : State σ) :
    (OnDeactivate s).1 = none ∧
    (s.p.preCalcJob = none → (OnDeactivate s).2 = s) ∧
    (∀ c, s.p.preCalcJob = some c → emitted s (OnDeactivate s).2 = [.cronStop c]) ∧
    (OnDeactivate (OnDeactivate s).2).1 = none ∧
    (OnDeactivate (OnDeactivate s).2).2.p = (OnDeactivate s).2.p ∧
    (OnDeactivate (OnDeactivate s).2).2.crons = (OnDeactivate s).2.crons ∧
    (OnDeactivate (OnDeactivate s).2).2.world = (OnDeactivate s).2.world ∧
    (OnDeactivate (OnDeactivate s).2).2.spawned = (OnDeactivate s).2.spawned := by
  cases hj : s.p.preCalcJob with
  | none => simp [OnDeactivate, hj]
  | some c =>
    simp [OnDeactivate, hj, cronStop, State.log, emitted, updateCron_stop_twice]

/-- Witness of C5 on the zero-value plugin, which holds no handle. -/
theorem OnDeactivate_nil_and_idempotent_witness :
    (OnDeactivate emptyState).2 = emptyState :=
  (OnDeactivate_nil_and_idempotent emptyState).2.1 rfl

/-- C6, counterexample: the plugin holds a started job (cron object 0) and
`startPrecalcJob` is called again; it returns nil and makes no Stop call on
that job. -/
theorem startPrecalcJob_second_start_counterexample :
    startedState.p.preCalcJob = some 0 ∧
    startedState.crons[0]? =
      some { entries := [("@every 1h", .precalcTick)], running := true } ∧
    ¬ ((startPrecalcJob okEnv startedState).1 ≠ none ∨
        Event.cronStop 0 ∈ emitted startedState (startPrecalcJob okEnv startedState).2) := by
  decide

/-- C6, amended: on a plugin that already holds a started job and whose
configured expression the cron parser accepts, `startPrecalcJob` returns nil,
makes no Stop call, leaves the prior cron object as it was (still running),
and stores in `preCalcJob` a different, newly allocated cron object that is
running with the tick closure as its only entry. -/
theorem startPrecalcJob_second_start_replaces_without_stop (env : Env σ) (s : State σ)
    (c : Nat) (k : Cron)
    (hj : s.p.preCalcJob = some c) (hk : s.crons[c]? = some k) (hr : k.running = true)
    (h : env.cronParse (env.getConfiguration s.p.configuration).PreCalculationPeriod = none) :
    (startPrecalcJob env s).1 = none ∧
    (∀ ev ∈ emitted s (startPrecalcJob env s).2, ev.callee ≠ .Stop) ∧
    (startPrecalcJob env s).2.crons[c]? = some k ∧
    ((startPrecalcJob env s).2.crons[c]?).map Cron.running = some true ∧
    (startPrecalcJob env s).2.p.preCalcJob = some s.crons.length ∧
    (startPrecalcJob env s).2.p.preCalcJob ≠ s.p.preCalcJob ∧
    (startPrecalcJob env s).2.crons[s.crons.length]? =
      some { entries :=
              [((env.getConfiguration s.p.configuration).PreCalculationPeriod, .precalcTick)]
             running := true } := by
  have hc : c < s.crons.length := by
    by_contra hlt
    rw [List.getElem?_eq_none (Nat.le_of_not_lt hlt)] at hk
    cases hk
  have hkeep : (s.crons ++
      [({ entries :=
            [((env.getConfiguration s.p.configuration).PreCalculationPeriod, .precalcTick)]
          running := true } : Cron)])[c]? = some k := by
    rw [List.getElem?_append_left hc]
    exact hk
  rw [startPrecalcJob_accepted_eq env s h]
  refine ⟨rfl, ?_, hkeep, ?_, rfl, ?_, ?_⟩
  · simp [emitted, Event.callee]
  · simp only []
    rw [hkeep]
    simp [hr]
  · simp only [hj]
    intro heq
    exact absurd (Option.some.inj heq) (Nat.ne_of_gt hc)
  · simp

/-- Witness of the amended C6 on the started plugin of the counterexample. -/
theorem startPrecalcJob_second_start_replaces_without_stop_witness :
    (startPrecalcJob okEnv startedState).1 = none ∧
    (startPrecalcJob okEnv startedState).2.crons[0]? =
      some { entries := [("@every 1h", .precalcTick)], running := true } ∧
    (startPrecalcJob okEnv startedState).2.p.preCalcJob = some 1 :=
  have w := startPrecalcJob_second_start_replaces_without_stop okEnv startedState 0
    { entries := [("@every 1h", .precalcTick)], running := true }
    (by decide) (by decide) rfl (by decide)
  ⟨w.1, w.2.2.1, w.2.2.2.2.1⟩

/-- What one run of either closure does, by outcome of the gate and of the
callback: the plugin, the cron objects and the dispatched goroutines are
untouched, and the calls made are the ones listed. -/
theorem runClosure_cases (env : Env σ) (f : Closure) (s : State σ) :
    (runClosure env f s).p = s.p ∧
    (runClosure env f s).crons = s.crons ∧
    (runClosure env f s).spawned = s.spawned ∧
    (runClosure env f s).trace = s.trace ++
      (match (env.attemptAcquire s.world).1 with
       | .failed e =>
         [.RunOnSingleNode (.failed e), .LogError "Can't run on single node" "error" e]
       | .lost => [.RunOnSingleNode .lost]
       | .won =>
         match (env.preCalculateRecommendations (env.attemptAcquire s.world).2).1 with
         | some e =>
           [.RunOnSingleNode .won, .preCalculateRecommendations (some e),
            .LogError "Can't calculate recommendations" "error" e]
         | none => [.RunOnSingleNode .won, .preCalculateRecommendations none]) := by
  cases f <;>
  · simp only [runClosure, tickFunc, atOnceFunc, RunOnSingleNode, preCalculateRecommendations,
      LogError, State.log]
    generalize env.attemptAcquire s.world = a
    obtain ⟨a, w⟩ := a
    cases a with
    | failed e => simp
    | lost => simp
    | won =>
      dsimp only
      generalize env.preCalculateRecommendations w = r
      obtain ⟨r, w2⟩ := r
      cases r <;> simp

/-- C7: for the tick closure and for the closure of the immediate invocation
alike, one run changes neither the plugin nor the cron objects nor the
dispatched goroutines, and makes exactly these calls: when acquisition fails
with `e`, the gate call and one LogError "Can't run on single node" with `e`,
and no callback call; when the round is lost, the gate call alone; when it is
won and the callback returns error `e`, the gate call, one callback call and
one LogError "Can't calculate recommendations" with `e`; when it is won and
the callback succeeds, the gate call and one callback call. -/
theorem closure_failures_logged_not_propagated (env : Env σ) (f : Closure) (s : State σ) :
    (runClosure env f s).p = s.p ∧
    (runClosure env f s).crons = s.crons ∧
    (runClosure env f s).spawned = s.spawned ∧
    (∀ e, (env.attemptAcquire s.world).1 = .failed e →
      emitted s (runClosure env f s) =
        [.RunOnSingleNode (.failed e), .LogError "Can't run on single node" "error" e]) ∧
    ((env.attemptAcquire s.world).1 = .lost →
      emitted s (runClosure env f s) = [.RunOnSingleNode .lost]) ∧
    ((env.attemptAcquire s.world).1 = .won →
      (∀ e, (env.preCalculateRecommendations (env.attemptAcquire s.world).2).1 = some e →
        emitted s (runClosure env f s) =
          [.RunOnSingleNode .won, .preCalculateRecommendations (some e),
           .LogError "Can't calculate recommendations" "error" e]) ∧
      ((env.preCalculateRecommendations (env.attemptAcquire s.world).2).1 = none →
        emitted s (runClosure env f s) =
          [.RunOnSingleNode .won, .preCalculateRecommendations none])) := by
  obtain ⟨hp, hc, hsp, ht⟩ := runClosure_cases env f s
  refine ⟨hp, hc, hsp, ?_, ?_, ?_⟩
  · intro e he
    rw [he] at ht
    exact emitted_append _ _ _ ht
  · intro he
    rw [he] at ht
    exact emitted_append _ _ _ ht
  · intro he
    rw [he] at ht
    refine ⟨?_, ?_⟩
    · intro e hr
      simp only [hr] at ht
      exact emitted_append _ _ _ ht
    · intro hr
      simp only [hr] at ht
      exact emitted_append _ _ _ ht

/-- Witness of C7: with the always-granting gate the first callback run of
`okEnv` fails, and the tick logs it once; with the failing gate the immediate
invocation logs the coordination failure once. -/
theorem closure_failures_logged_not_propagated_witness :
    emitted emptyState (runClosure okEnv .precalcTick emptyState) =
      [.RunOnSingleNode .won,
       .preCalculateRecommendations (some (.new "first run failed")),
       .LogError "Can't calculate recommendations" "error" (.new "first run failed")] ∧
    emitted emptyState (runClosure gateErrorEnv .precalcAtOnce emptyState) =
      [.RunOnSingleNode (.failed (.new "cluster unreachable")),
       .LogError "Can't run on single node" "error" (.new "cluster unreachable")] :=
  ⟨((closure_failures_logged_not_propagated okEnv .precalcTick emptyState).2.2.2.2.2 rfl).1
      (.new "first run failed") rfl,
    (closure_failures_logged_not_propagated gateErrorEnv .precalcAtOnce emptyState).2.2.2.1
      (.new "cluster unreachable") rfl⟩

/-! ### Activation followed by ticks -/

/-- The three ways `OnActivate` ends, with the state it leaves: `setupBot`
failed; the cron parser rejected the expression; or the job was started and
the immediate invocation dispatched. -/
theorem OnActivate_cases (env : Env σ) (s : State σ) :
    ∃ evs w b,
      (∀ ev ∈ evs, ev.callee = .EnsureBot ∨ ev.callee = .GetBundlePath ∨
        ev.callee = .reader ∨ ev.callee = .SetProfileImage) ∧
      ((∃ e, OnActivate env s =
          (.returned (some e),
            { s with
              p := { s.p with botUserID := b }
              world := w
              trace := s.trace ++
                [.RegisterCommand env.getCommand
                  (env.RegisterCommand env.getCommand s.world).1] ++ evs })) ∨
       (∃ e, OnActivate env s =
          (.returned (some e),
            { s with
              p := { s.p with
                botUserID := b
                preCalcPeriod := (env.getConfiguration s.p.configuration).PreCalculationPeriod }
              world := w
              crons := s.crons ++ [{ entries := [], running := false }]
              trace := s.trace ++
                [.RegisterCommand env.getCommand
                  (env.RegisterCommand env.getCommand s.world).1] ++ evs ++
                [.cronNew s.crons.length,
                 .cronAddFunc s.crons.length
                   (env.getConfiguration s.p.configuration).PreCalculationPeriod
                   (env.cronParse
                     (env.getConfiguration s.p.configuration).PreCalculationPeriod)] })) ∨
       OnActivate env s =
          (.returned none,
            { p := { s.p with
                botUserID := b
                preCalcPeriod := (env.getConfiguration s.p.configuration).PreCalculationPeriod
                preCalcJob := some s.crons.length }
              world := w
              crons := s.crons ++
                [{ entries :=
                    [((env.getConfiguration s.p.configuration).PreCalculationPeriod,
                      .precalcTick)]
                   running := true }]
              trace := s.trace ++
                [.RegisterCommand env.getCommand
                  (env.RegisterCommand env.getCommand s.world).1] ++ evs ++
                [.cronNew s.crons.length,
                 .cronAddFunc s.crons.length
                   (env.getConfiguration s.p.configuration).PreCalculationPeriod none,
                 .cronStart s.crons.length,
                 .goFunc .precalcAtOnce]
              spawned := s.spawned ++ [.precalcAtOnce] })) := by
  obtain ⟨evs, w, b, heq, hev⟩ :=
    setupBot_effect env (some env.ioutilReadFile) (RegisterCommand env env.getCommand s).2
  obtain ⟨err, hr⟩ :=
    setupBot_returns env env.ioutilReadFile (RegisterCommand env env.getCommand s).2
  refine ⟨evs, w, b, hev, ?_⟩
  cases err with
  | some e1 =>
    refine Or.inl ⟨e1, ?_⟩
    simp only [OnActivate, hr]
    rw [heq]
    simp [RegisterCommand, State.log]
  | none =>
    cases hp : env.cronParse (env.getConfiguration s.p.configuration).PreCalculationPeriod with
    | some e =>
      have h2 : env.cronParse (env.getConfiguration
          (setupBot env (some env.ioutilReadFile)
            (RegisterCommand env env.getCommand s).2).2.p.configuration).PreCalculationPeriod =
          some e := by
        rw [heq]
        exact hp
      have hj := startPrecalcJob_rejected_eq env _ e h2
      refine Or.inr (Or.inl ⟨.wrap e "Can't start precalc job", ?_⟩)
      simp only [OnActivate, hr, hj, errorsWrap]
      rw [heq]
      simp [RegisterCommand, State.log]
    | none =>
      have h2 : env.cronParse (env.getConfiguration
          (setupBot env (some env.ioutilReadFile)
            (RegisterCommand env env.getCommand s).2).2.p.configuration).PreCalculationPeriod =
          none := by
        rw [heq]
        exact hp
      have hj := startPrecalcJob_accepted_eq env _ h2
      refine Or.inr (Or.inr ?_)
      simp only [OnActivate, hr, hj]
      rw [heq]
      simp [RegisterCommand, State.log]

/-- One run of a closure under an always-granting gate is one callback
invocation. -/
theorem runClosure_count_granted (env : Env σ) (f : Closure) (s : State σ)
    (hg : ∀ w, (env.attemptAcquire w).1 = .won) :
    callbackCount (runClosure env f s).trace = callbackCount s.trace + 1 := by
  obtain ⟨_, _, _, ht⟩ := runClosure_cases env f s
  rw [ht, hg s.world]
  cases (env.preCalculateRecommendations (env.attemptAcquire s.world).2).1 <;>
    simp [callbackCount, List.countP_cons, Event.isCallback]

/-- Firing cron objects that are not running changes nothing. -/
theorem foldl_fire_idle (env : Env σ) (s : State σ) (l : List Nat)
    (h : ∀ c ∈ l, ∀ k, s.crons[c]? = some k → k.running = false) :
    l.foldl (fun st c => fire env c st) s = s := by
  induction l with
  | nil => rfl
  | cons c rest ih =>
    have hc : fire env c s = s := by
      unfold fire
      cases hk : s.crons[c]? with
      | none => rfl
      | some k => simp [h c (List.mem_cons_self c rest) k hk]
    rw [List.foldl_cons, hc]
    exact ih (fun c1 hc1 => h c1 (List.mem_cons_of_mem c hc1))

/-- A scheduled occurrence, when the only running cron object is the one
allocated last and its only entry is the tick closure, runs that closure
once. -/
theorem step_tick_eq (env : Env σ) (s : State σ) (cs : List Cron) (spec : String)
    (hk : s.crons = cs ++ [{ entries := [(spec, .precalcTick)], running := true }])
    (hidle : ∀ k ∈ cs, k.running = false) :
    step env .tick s = runClosure env .precalcTick s := by
  have hlen : s.crons.length = cs.length + 1 := by simp [hk]
  have hrest : (List.range cs.length).foldl (fun st c => fire env c st) s = s := by
    apply foldl_fire_idle
    intro c hc k hck
    have hlt : c < cs.length := List.mem_range.mp hc
    rw [hk, List.getElem?_append_left hlt] at hck
    exact hidle k (List.getElem?_mem hck)
  have hlast : fire env cs.length s = runClosure env .precalcTick s := by
    simp [fire, hk]
  simp only [step, fireAll, hlen, List.range_succ, List.foldl_append, hrest, List.foldl_cons,
    List.foldl_nil, hlast]

/-- Callback invocations along a run of steps, under an always-granting gate,
when the only running cron object is the one allocated last, with the tick
closure as its only entry: one per scheduled occurrence, plus one when the
single dispatched goroutine gets to run. -/
theorem run_callbackCount (env : Env σ) (hg : ∀ w, (env.attemptAcquire w).1 = .won)
    (cs : List Cron) (spec : String) (hidle : ∀ k ∈ cs, k.running = false)
    (steps : List Step) :
    ∀ s : State σ,
      s.crons = cs ++ [{ entries := [(spec, .precalcTick)], running := true }] →
      (s.spawned = [] →
        callbackCount (run env steps s).trace = callbackCount s.trace + steps.count .tick) ∧
      (∀ f, s.spawned = [f] →
        callbackCount (run env steps s).trace =
          callbackCount s.trace + steps.count .tick +
            (if Step.runSpawned ∈ steps then 1 else 0)) := by
  induction steps with
  | nil => intro s _; simp [run]
  | cons a rest ih =>
    intro s hk
    have hrun : run env (a :: rest) s = run env rest (step env a s) := rfl
    rw [hrun]
    cases a with
    | tick =>
      rw [step_tick_eq env s cs spec hk hidle]
      obtain ⟨_, hc, hsp, _⟩ := runClosure_cases env .precalcTick s
      have hcount := runClosure_count_granted env .precalcTick s hg
      obtain ⟨ih1, ih2⟩ := ih (runClosure env .precalcTick s) (by rw [hc]; exact hk)
      refine ⟨?_, ?_⟩
      · intro hs
        rw [ih1 (by rw [hsp]; exact hs), hcount]
        simp
        omega
      · intro f hs
        rw [ih2 f (by rw [hsp]; exact hs), hcount]
        simp
        omega
    | runSpawned =>
      refine ⟨?_, ?_⟩
      · intro hs
        have hstep : step env .runSpawned s = s := by simp [step, hs]
        rw [hstep, (ih s hk).1 hs]
        simp
      · intro f hs
        have hstep : step env .runSpawned s = runClosure env f { s with spawned := [] } := by
          simp [step, hs]
        obtain ⟨_, hc, hsp, _⟩ := runClosure_cases env f { s with spawned := [] }
        have hcount := runClosure_count_granted env f { s with spawned := [] } hg
        rw [hstep, (ih _ (by rw [hc]; exact hk)).1 (by rw [hsp]), hcount]
        simp
        omega

/-- C8: take a plugin with no cron object running and no goroutine pending.
After a successful `OnActivate`, any sequence of steps that contains `n`
scheduled occurrences and lets the dispatched immediate invocation run adds,
under a gate that always grants exclusivity, exactly `n + 1` callback
invocations to the trace. -/
theorem callback_invoked_n_plus_one (env : Env σ) (s : State σ) (steps : List Step) (n : Nat)
    (hg : ∀ w, (env.attemptAcquire w).1 = .won)
    (hact : (OnActivate env s).1 = .returned none)
    (hidle : ∀ k ∈ s.crons, k.running = false)
    (hs : s.spawned = [])
    (hn : steps.count .tick = n)
    (himm : Step.runSpawned ∈ steps) :
    callbackCount (run env steps (OnActivate env s).2).trace =
      callbackCount s.trace + (n + 1) := by
  obtain ⟨evs, w, b, hev, hO | hO | hO⟩ := OnActivate_cases env s
  · obtain ⟨e, hO⟩ := hO
    rw [hO] at hact
    cases hact
  · obtain ⟨e, hO⟩ := hO
    rw [hO] at hact
    cases hact
  · have hevs : callbackCount evs = 0 := by
      unfold callbackCount
      rw [List.countP_eq_zero]
      intro ev hmem
      rcases hev ev hmem with h1 | h1 | h1 | h1 <;>
        cases ev <;> simp_all [Event.callee, Event.isCallback]
    rw [hO]
    refine Eq.trans ((run_callbackCount env hg s.crons
      (env.getConfiguration s.p.configuration).PreCalculationPeriod hidle steps _ ?_).2
        .precalcAtOnce ?_) ?_
    · rfl
    · simp [hs]
    · rw [hn]
      simp only [callbackCount] at hevs
      simp [himm, callbackCount, List.countP_append, List.countP_cons, Event.isCallback, hevs]
      omega

/-- Witness of C8 for `n = 3`: three scheduled occurrences, the immediate
invocation running between the first and the second, on the zero-value plugin
with the doubles of the test "no error": four callback invocations. -/
theorem callback_invoked_n_plus_one_witness :
    callbackCount
      (run okEnv [.tick, .runSpawned, .tick, .tick] (OnActivate okEnv emptyState).2).trace = 4 :=
  callback_invoked_n_plus_one okEnv emptyState [.tick, .runSpawned, .tick, .tick] 3
    (fun _ => rfl) (by decide) (by decide) rfl (by decide) (by decide)

/-- Why C8 asks for no running cron object beforehand: activating a plugin
that already holds a started job leaves two cron objects running, both fire
at each scheduled occurrence, and three occurrences plus the immediate
invocation are seven callback invocations. -/
theorem second_activation_fires_both_jobs :
    callbackCount
      (run okEnv [.tick, .runSpawned, .tick, .tick] (OnActivate okEnv startedState).2).trace = 7 := by
  decide

/-- C9: `OnActivate` does not wait for the immediate invocation.  Its result
and the state it leaves are the same whatever the gate and the callback are,
so it never runs them: it makes no gate, callback or LogError call; and when
it succeeds, its last action is the `go` statement, which leaves the closure
of the immediate invocation dispatched, to be run by a later step as the gate
invocation `atOnceFunc`. -/
theorem OnActivate_does_not_wait (env : Env σ) (s : State σ)
    (acq : σ → Acquire × σ) (rel : σ → σ) (cb : σ → Option GoError × σ) :
    OnActivate
        { env with attemptAcquire := acq, release := rel, preCalculateRecommendations := cb } s =
      OnActivate env s ∧
    (∀ ev ∈ emitted s (OnActivate env s).2,
      ev.callee ≠ .RunOnSingleNode ∧ ev.callee ≠ .preCalculateRecommendations ∧
      ev.callee ≠ .LogError) ∧
    ((OnActivate env s).1 = .returned none →
      (OnActivate env s).2.spawned = s.spawned ++ [.precalcAtOnce] ∧
      (emitted s (OnActivate env s).2).getLast? = some (.goFunc .precalcAtOnce) ∧
      (s.spawned = [] →
        step env .runSpawned (OnActivate env s).2 =
          atOnceFunc env { (OnActivate env s).2 with spawned := [] })) := by
  have hev2 : ∀ evs : List Event,
      (∀ ev ∈ evs, ev.callee = .EnsureBot ∨ ev.callee = .GetBundlePath ∨
        ev.callee = .reader ∨ ev.callee = .SetProfileImage) →
      ∀ ev ∈ evs, ev.callee ≠ .RunOnSingleNode ∧ ev.callee ≠ .preCalculateRecommendations ∧
        ev.callee ≠ .LogError := by
    intro evs hev ev hmem
    rcases hev ev hmem with h1 | h1 | h1 | h1 <;> simp [h1]
  refine ⟨rfl, ?_, ?_⟩
  · obtain ⟨evs, w, b, hev, hO | hO | hO⟩ := OnActivate_cases env s
    · obtain ⟨e, hO⟩ := hO
      rw [hO]
      intro ev hmem
      simp only [emitted, List.append_assoc, List.drop_left, List.singleton_append,
        List.mem_cons] at hmem
      rcases hmem with rfl | hmem
      · simp [Event.callee]
      · exact hev2 evs hev ev hmem
    · obtain ⟨e, hO⟩ := hO
      rw [hO]
      intro ev hmem
      simp only [emitted, List.append_assoc, List.drop_left, List.singleton_append,
        List.mem_cons, List.mem_append, List.mem_singleton, List.not_mem_nil, or_false,
        List.cons_append, List.nil_append] at hmem
      rcases hmem with rfl | hmem | rfl | rfl
      · simp [Event.callee]
      · exact hev2 evs hev ev hmem
      · simp [Event.callee]
      · simp [Event.callee]
    · rw [hO]
      intro ev hmem
      simp only [emitted, List.append_assoc, List.drop_left, List.singleton_append,
        List.mem_cons, List.mem_append, List.mem_singleton, List.not_mem_nil, or_false,
        List.cons_append, List.nil_append] at hmem
      rcases hmem with rfl | hmem | rfl | rfl | rfl | rfl
      · simp [Event.callee]
      · exact hev2 evs hev ev hmem
      · simp [Event.callee]
      · simp [Event.callee]
      · simp [Event.callee]
      · simp [Event.callee]
  · intro hact
    obtain ⟨evs, w, b, hev, hO | hO | hO⟩ := OnActivate_cases env s
    · obtain ⟨e, hO⟩ := hO
      rw [hO] at hact
      cases hact
    · obtain ⟨e, hO⟩ := hO
      rw [hO] at hact
      cases hact
    · rw [hO]
      refine ⟨rfl, ?_, ?_⟩
      · simp only [emitted, List.append_assoc, List.drop_left]
        rw [List.getLast?_eq_some_iff]
        exact ⟨.RegisterCommand env.getCommand (env.RegisterCommand env.getCommand s.world).1 ::
          (evs ++ [.cronNew s.crons.length,
            .cronAddFunc s.crons.length
              (env.getConfiguration s.p.configuration).PreCalculationPeriod none,
            .cronStart s.crons.length]), by simp⟩
      · intro hs
        simp [step, hs, runClosure]

/-- Witness of C9 on the doubles of the test "no error": activation succeeds
and the immediate invocation is left dispatched. -/
theorem OnActivate_does_not_wait_witness :
    (OnActivate okEnv emptyState).2.spawned = [.precalcAtOnce] :=
  ((OnActivate_does_not_wait okEnv emptyState okEnv.attemptAcquire okEnv.release
    okEnv.preCalculateRecommendations).2.2 (by decide)).1

end Suggestions
